import Mathlib

/-!
Verification development for the unifi-log-insight receiver.

Shallow embedding of the Python sources under `receiver/` (parsers.py,
db.py, blacklist.py, enrichment.py, backfill.py, unifi_api.py,
routes/abuseipdb.py).  Machine integers are modelled as `Nat`/`Int`;
Python `None` on string fields is modelled as the empty string where the
source only ever tests truthiness, and as `Option` elsewhere; fallible
parsing returns `Option`.  String primitives are implemented over
`List Char` so that every definition evaluates inside the kernel.
-/

set_option maxRecDepth 10000

/-! ## String primitives (kernel-computable equivalents of Python ops) -/

/-- Split a character list at every occurrence of `sep` (Python
`str.split(sep)` for a one-character separator: `""` splits to `[""]`). -/
def splitChars (sep : Char) : List Char → List (List Char)
  | [] => [[]]
  | c :: cs =>
    let r := splitChars sep cs
    if c = sep then [] :: r
    else
      match r with
      | h :: t => (c :: h) :: t
      | [] => [[c]]

/-- Python `s.split(sep)` for a one-character separator. -/
def strSplit (s : String) (sep : Char) : List String :=
  (splitChars sep s.data).map (fun l => ⟨l⟩)

/-- Python `c in s` for a single character. -/
def strHasChar (s : String) (c : Char) : Bool :=
  s.data.any (fun d => d = c)

/-- Python `needle in hay` substring test. -/
def strHasSub (hay needle : String) : Bool :=
  hay.data.tails.any (fun t => needle.data.isPrefixOf t)

/-- Python `s.startswith(p)`. -/
def strStarts (s p : String) : Bool :=
  p.data.isPrefixOf s.data

/-- Join string pieces with a one-character separator (Python `sep.join`). -/
def joinSep (sep : String) : List String → String
  | [] => ""
  | [x] => x
  | x :: xs => x ++ sep ++ joinSep sep xs

/-! ## Python `ipaddress` module, as used by the sources

The sources call `ipaddress.ip_address(s)` (strict IPv4 dotted-quad or
IPv6 textual form), `str(...)` canonical printing, and the predicates
`is_multicast`, `is_global`, plus network containment.  The embedding
follows CPython `Lib/ipaddress.py` (IPv6 zone-id literals are not
modelled; the sources never produce them). -/

/-- A parsed IP address: a 32-bit IPv4 or a 128-bit IPv6 numeric value. -/
inductive IPAddr where
  | v4 (n : Nat)
  | v6 (n : Nat)
deriving DecidableEq, Repr

/-- CPython `_parse_octet`: decimal digits only, at most 3 of them, no
leading zeros, value at most 255. -/
def parseOctet (s : String) : Option Nat :=
  let cs := s.data
  if cs = [] then none
  else if ¬ cs.all Char.isDigit then none
  else if cs.length > 3 then none
  else if cs.head? = some '0' ∧ cs.length ≠ 1 then none
  else
    let n := cs.foldl (fun a c => a * 10 + (c.toNat - 48)) 0
    if n > 255 then none else some n

/-- CPython `IPv4Address(s)`: four octets separated by dots. -/
def parseIPv4 (s : String) : Option Nat :=
  if strHasChar s '/' then none
  else match strSplit s '.' with
    | [a, b, c, d] => do
      let a ← parseOctet a
      let b ← parseOctet b
      let c ← parseOctet c
      let d ← parseOctet d
      pure (a * 16777216 + b * 65536 + c * 256 + d)
    | _ => none

/-- Value of one hex digit character. -/
def hexDigitVal (c : Char) : Nat :=
  if c.isDigit then c.toNat - 48
  else if 'a' ≤ c ∧ c ≤ 'f' then c.toNat - 87
  else c.toNat - 55

/-- CPython `_parse_hextet`: 1..4 hex digits. -/
def parseHextet (s : String) : Option Nat :=
  let cs := s.data
  if ¬ cs.all (fun c => c.isDigit ∨ ('a' ≤ c ∧ c ≤ 'f') ∨ ('A' ≤ c ∧ c ≤ 'F')) then none
  else if cs.length > 4 then none
  else if cs = [] then none
  else some (cs.foldl (fun a c => a * 16 + hexDigitVal c) 0)

/-- Lowercase hex rendering without padding (Python `'%x' % n`). -/
def hexStr (n : Nat) : String :=
  ⟨Nat.toDigits 16 n⟩

/-- CPython IPv6 `_ip_int_from_string`: split on `:`, expand an embedded
trailing IPv4, locate the single `::` run, and assemble 8 hextets. -/
def parseIPv6 (s : String) : Option Nat :=
  if s = "" then none
  else if strHasChar s '/' then none
  else if strHasChar s '%' then none
  else
    let parts0 := strSplit s ':'
    if parts0.length < 3 then none
    else
      let partsM : Option (List String) :=
        match parts0.getLast? with
        | some p =>
          if strHasChar p '.' then
            match parseIPv4 p with
            | some v4 =>
              some (parts0.dropLast ++ [hexStr (v4 / 65536), hexStr (v4 % 65536)])
            | none => none
          else some parts0
        | none => none
      match partsM with
      | none => none
      | some parts =>
        if parts.length > 9 then none
        else
          let interior := (List.range parts.length).filter
            (fun i => 0 < i ∧ i + 1 < parts.length ∧ parts.getD i "x" = "")
          match interior with
          | [] =>
            if parts.length ≠ 8 then none
            else if parts.headD "x" = "" then none
            else if parts.getLast? = some "" then none
            else (parts.mapM parseHextet).map
              (fun hx => hx.foldl (fun a h => a * 65536 + h) 0)
          | [i] =>
            let hiM : Option Nat :=
              if parts.headD "x" = "" then (if i - 1 ≠ 0 then none else some 0)
              else some i
            let loM : Option Nat :=
              let lo0 := parts.length - i - 1
              if parts.getLast? = some "" then (if lo0 - 1 ≠ 0 then none else some 0)
              else some lo0
            match hiM, loM with
            | some hi, some lo =>
              if hi + lo ≥ 8 then none
              else
                match (parts.take hi).mapM parseHextet,
                      ((parts.drop (parts.length - lo)).mapM parseHextet) with
                | some hxHi, some hxLo =>
                  let v := hxHi.foldl (fun a h => a * 65536 + h) 0
                  let v := v * 65536 ^ (8 - (hi + lo))
                  some (hxLo.foldl (fun a h => a * 65536 + h) v)
                | _, _ => none
            | _, _ => none
          | _ => none

/-- CPython `ip_address(s)`: IPv4 first, then IPv6. -/
def pythonIpAddress (s : String) : Option IPAddr :=
  match parseIPv4 s with
  | some n => some (.v4 n)
  | none => (parseIPv6 s).map .v6

/-- Canonical dotted-quad rendering of an IPv4 value (`str(IPv4Address)`). -/
def printIPv4 (n : Nat) : String :=
  joinSep "." [toString (n / 16777216 % 256), toString (n / 65536 % 256),
    toString (n / 256 % 256), toString (n % 256)]

/-- CPython `_compress_hextets`: collapse the leftmost longest run of two
or more zero hextets into an empty slot that joins into `::`. -/
def compressHextets (hx : List String) : List String :=
  let st := hx.enum.foldl
    (fun (st : Int × Nat × Int × Nat) p =>
      let (bs, bl, cs, cl) := st
      if p.2 = "0" then
        let cs := if cs = -1 then (p.1 : Int) else cs
        let cl := cl + 1
        if cl > bl then (cs, cl, cs, cl) else (bs, bl, cs, cl)
      else (bs, bl, -1, 0))
    (-1, 0, -1, 0)
  let bs := st.1
  let bl := st.2.1
  if bl > 1 then
    let s := bs.toNat
    let e := s + bl
    let hx := if e = hx.length then hx ++ [""] else hx
    let hx := hx.take s ++ [""] ++ hx.drop e
    if s = 0 then [""] ++ hx else hx
  else hx

/-- Canonical RFC 5952 rendering of an IPv6 value (`str(IPv6Address)`). -/
def printIPv6 (n : Nat) : String :=
  let hextets := (List.range 8).map (fun i => hexStr (n / 65536 ^ (7 - i) % 65536))
  joinSep ":" (compressHextets hextets)

/-- Canonical rendering of a parsed address, `str(ipaddress.ip_address(s))`. -/
def printIP (a : IPAddr) : String :=
  match a with
  | .v4 n => printIPv4 n
  | .v6 n => printIPv6 n

/-- Shared normalisation helper of `db.upsert_threat` and
`blacklist._normalize_ip`: canonicalise when the literal parses, keep the
string otherwise. -/
def normalizeIP (s : String) : String :=
  match pythonIpAddress s with
  | some a => printIP a
  | none => s

/-- A literal that parses and is already in canonical form. -/
def canonicalIP (s : String) : Prop :=
  (pythonIpAddress s).isSome ∧ normalizeIP s = s

instance (s : String) : Decidable (canonicalIP s) := by
  unfold canonicalIP; infer_instance

/-- Membership of an address in an IPv4 network given as (base, prefix
length); false on version mismatch, like CPython `__contains__`. -/
def memberOfV4Net (a : IPAddr) (base plen : Nat) : Bool :=
  match a with
  | .v4 n => n / 2 ^ (32 - plen) == base / 2 ^ (32 - plen)
  | .v6 _ => false

/-- Membership of an address in an IPv6 network; false on version mismatch. -/
def memberOfV6Net (a : IPAddr) (base plen : Nat) : Bool :=
  match a with
  | .v4 _ => false
  | .v6 n => n / 2 ^ (128 - plen) == base / 2 ^ (128 - plen)

/-- CPython `is_multicast`: 224.0.0.0/4 for IPv4, ff00::/8 for IPv6. -/
def ipIsMulticast (a : IPAddr) : Bool :=
  match a with
  | .v4 n => n / 2 ^ 28 == 14
  | .v6 n => n / 2 ^ 120 == 255

/-- CPython IPv4 `_private_networks` (base, prefix length). -/
def pythonPrivateNetsV4 : List (Nat × Nat) :=
  [(0, 8), (167772160, 8), (2130706432, 8), (2851995648, 16), (2886729728, 12),
   (3221225472, 29), (3221225642, 31), (3221225984, 24), (3232235520, 16),
   (3323068416, 15), (3325256704, 24), (3405803776, 24), (4026531840, 4),
   (4294967295, 32)]

/-- CPython IPv6 `_private_networks` (base, prefix length). -/
def pythonPrivateNetsV6 : List (Nat × Nat) :=
  [(1, 128), (0, 128), (281470681743360, 96),
   (1329227995784915872903807060280344576, 64),
   (42540488161975842760550356425300246528, 23),
   (42540766411282592856903984951653826560, 32),
   (334965454937798799971759379190646833152, 7),
   (338288524927261089654018896841347694592, 10)]

/-- CPython `is_private`. -/
def ipIsPrivate (a : IPAddr) : Bool :=
  match a with
  | .v4 _ => pythonPrivateNetsV4.any (fun p => memberOfV4Net a p.1 p.2)
  | .v6 _ => pythonPrivateNetsV6.any (fun p => memberOfV6Net a p.1 p.2)

/-- CPython `is_global`: for IPv4, outside 100.64.0.0/10 and not private;
for IPv6, not private. -/
def ipIsGlobal (a : IPAddr) : Bool :=
  match a with
  | .v4 _ => ¬ memberOfV4Net a 1681915904 10 ∧ ¬ ipIsPrivate a
  | .v6 _ => ¬ ipIsPrivate a

example : pythonIpAddress "203.0.113.4" = some (.v4 3405803780) := by decide
example : pythonIpAddress "255.255.255.255" = some (.v4 4294967295) := by decide
example : pythonIpAddress "::1" = some (.v6 1) := by decide
example : pythonIpAddress "2001:DB8::1" = some (.v6 42540766411282592856903984951653826561) := by decide
example : normalizeIP "2001:DB8::1" = "2001:db8::1" := by decide
example : normalizeIP "010.1.2.3" = "010.1.2.3" := by decide
example : pythonIpAddress "::ffff:1.2.3.4" = some (.v6 281470698652420) := by decide
example : pythonIpAddress "1:2:3:4:5:6:7:8:9" = none := by decide
example : pythonIpAddress "fe80::1" =
    some (.v6 338288524927261089654018896841347694593) := by decide
example : ipIsMulticast (.v4 3758096385) = true := by decide
example : ipIsGlobal (.v4 134744072) = true := by decide
example : ipIsGlobal (.v4 3405803780) = false := by decide

/-! ## parsers.py -/

/-- parsers.MONTHS. -/
def MONTHS : List (String × Nat) :=
  [("Jan", 1), ("Feb", 2), ("Mar", 3), ("Apr", 4), ("May", 5), ("Jun", 6),
   ("Jul", 7), ("Aug", 8), ("Sep", 9), ("Oct", 10), ("Nov", 11), ("Dec", 12)]

/-- Python `MONTHS.get(month, 1)`. -/
def monthNumber (m : String) : Nat :=
  (MONTHS.lookup m).getD 1

/-- Python `int(s)` on an all-digit regex group. -/
def parseDigits (s : String) : Option Nat :=
  if s.data ≠ [] ∧ s.data.all Char.isDigit then
    some (s.data.foldl (fun a c => a * 10 + (c.toNat - 48)) 0)
  else none

/-- A local (sender-zone) datetime value as built by
`parsers.parse_syslog_timestamp` before UTC conversion. -/
structure LocalDT where
  year : Int
  month : Nat
  day : Nat
  hour : Nat
  minute : Nat
  second : Nat
deriving DecidableEq, Repr

/-- The receiver clock fields that `parse_syslog_timestamp` consults
(`datetime.now(local_tz)`). -/
structure NowClock where
  year : Int
  month : Nat
deriving DecidableEq, Repr

/-- Leap-year rule of the proleptic Gregorian calendar (Python datetime). -/
def isLeapYear (y : Int) : Bool :=
  y % 4 = 0 ∧ (y % 100 ≠ 0 ∨ y % 400 = 0)

/-- Days in a month (Python `datetime` validity bound). -/
def daysInMonth (y : Int) (m : Nat) : Nat :=
  if m = 2 then (if isLeapYear y then 29 else 28)
  else if m = 4 ∨ m = 6 ∨ m = 9 ∨ m = 11 then 30
  else 31

/-- parsers.parse_syslog_timestamp, up to the zone conversion: resolve the
month name, split the time, choose the year by the rollover guard
(`month_num - now.month > 6` subtracts one year), and build the local
datetime; `none` models the `ValueError` of an out-of-range component. -/
def parseSyslogTimestamp (now : NowClock) (month day timeStr : String) : Option LocalDT :=
  let monthNum := monthNumber month
  match strSplit timeStr ':' with
  | [hs, ms, ss] => do
    let d ← parseDigits day
    let h ← parseDigits hs
    let mi ← parseDigits ms
    let sec ← parseDigits ss
    let year : Int := if (monthNum : Int) - (now.month : Int) > 6 then now.year - 1 else now.year
    if 1 ≤ year ∧ year ≤ 9999 ∧ 1 ≤ d ∧ d ≤ daysInMonth year monthNum
        ∧ h ≤ 23 ∧ mi ≤ 59 ∧ sec ≤ 59 then
      some ⟨year, monthNum, d, h, mi, sec⟩
    else none
  | _ => none

/-- parsers.VPN_PREFIX_BADGES, in dict insertion (= iteration) order. -/
def VPN_PREFIX_BADGES : List (String × String) :=
  [("wgsrv", "WGD SRV"), ("wgclt", "WGD CLT"), ("wgsts", "S MAGIC"),
   ("tlprt", "TELEPORT"), ("vti", "S2S IPSEC"), ("tun", "OVPN TUN"),
   ("vtun", "OVPN VTN"), ("l2tp", "L2TP SRV")]

/-- parsers.VPN_INTERFACE_PREFIXES (ordered tuple). -/
def VPN_INTERFACE_PREFIXES : List String :=
  ["wgsrv", "wgclt", "wgsts", "tlprt", "vti", "tun", "vtun", "l2tp"]

/-- parsers.VPN_PREFIX_DESCRIPTIONS, in dict insertion order. -/
def VPN_PREFIX_DESCRIPTIONS : List (String × String) :=
  [("wgsrv", "WireGuard Server"), ("wgclt", "WireGuard Client"),
   ("wgsts", "Site Magic"), ("tlprt", "Teleport"), ("vti", "Site-to-Site IPsec"),
   ("tun", "OpenVPN / Tunnel 1"), ("vtun", "OpenVPN / Tunnel 2"),
   ("l2tp", "L2TP Server")]

/-- First prefix of an ordered structure that matches by `startswith`, as
iterated by the classification loops. -/
def firstStartswithMatch (ordered : List String) (iface : String) : Option String :=
  ordered.find? (fun p => strStarts iface p)

/-- parsers._is_broadcast_or_multicast. -/
def isBroadcastOrMulticast (ip : String) : Bool :=
  if ip = "" then false
  else if ip = "255.255.255.255" then true
  else
    match pythonIpAddress ip with
    | some a => ipIsMulticast a
    | none => false

/-- The WAN-IP set after the auto-learn block at the top of
`parsers.derive_direction` (module globals `WAN_IPS`, `_wan_ip`,
`_wan_ip_by_iface_present` passed explicitly). -/
def wanIPsAfterLearn (wanIfaces wanIPs : List String) (byIfacePresent : Bool)
    (curWanIp : Option String) (ifaceIn ruleName dstIp : String) : List String :=
  if ¬ byIfacePresent ∧ wanIfaces.contains ifaceIn
      ∧ strHasSub ruleName "WAN_LOCAL" ∧ dstIp ≠ "" then
    match pythonIpAddress dstIp with
    | some a =>
      if ipIsGlobal a ∧ ¬ ipIsMulticast a then
        let s := printIP a
        if curWanIp = some s then wanIPs
        else if wanIPs.contains s then wanIPs else wanIPs ++ [s]
      else wanIPs
    | none => wanIPs
  else wanIPs

/-- parsers.derive_direction.  Interface, rule and IP arguments use `""`
for Python `None` (call sites pass `None` or a non-empty string). -/
def deriveDirection (wanIfaces wanIPs : List String) (byIfacePresent : Bool)
    (curWanIp : Option String)
    (ifaceIn ifaceOut ruleName srcIp dstIp : String) : Option String :=
  if ifaceIn = "" ∧ ifaceOut = "" then none
  else
    let wips := wanIPsAfterLearn wanIfaces wanIPs byIfacePresent curWanIp ifaceIn ruleName dstIp
    if isBroadcastOrMulticast dstIp then some "local"
    else if srcIp ≠ "" ∧ wips.contains srcIp ∧ ¬ wanIfaces.contains ifaceOut then some "local"
    else if strHasSub ruleName "DNAT" ∨ strHasSub ruleName "PREROUTING" then some "nat"
    else
      let isWanIn := wanIfaces.contains ifaceIn
      if ifaceOut = "" then some (if isWanIn then "inbound" else "local")
      else
        let isWanOut := wanIfaces.contains ifaceOut
        if isWanIn ∧ ¬ isWanOut then some "inbound"
        else if ¬ isWanIn ∧ isWanOut then some "outbound"
        else if ¬ isWanIn ∧ ¬ isWanOut ∧ ifaceIn ≠ ifaceOut then
          if VPN_INTERFACE_PREFIXES.any
              (fun p => strStarts ifaceIn p ∨ strStarts ifaceOut p) then some "vpn"
          else some "inter_vlan"
        else some "local"

/-! ## unifi_api.py VPN discovery map and the test-suite expectations -/

/-- unifi_api.UniFiClient._VPN_TYPE_MAP: vpn_type to (interface prefix tag,
badge), in insertion order. -/
def VPN_TYPE_MAP : List (String × (String × String)) :=
  [("wireguard-server", ("wgsrv", "WGD SRV")),
   ("wireguard-client", ("wgclt", "WGD CLT")),
   ("site-magic-wan", ("wgsts", "S MAGIC")),
   ("teleport", ("tlprt", "TELEPORT")),
   ("ipsec-vpn", ("vti", "S2S IPSEC")),
   ("openvpn-server", ("tun", "OVPN SRV")),
   ("openvpn-client", ("tunovpnc", "OVPN CLT")),
   ("l2tp-server", ("l2tp", "L2TP SRV"))]

/-- tests/test_vpn_discovery.py: the post-fix VPN_PREFIX_BADGES the test
suite asserts parsers.py to hold (key order). -/
def testSuiteVPN_PREFIX_BADGES : List (String × String) :=
  [("wgsrv", "WGD SRV"), ("wgclt", "WGD CLT"), ("wgsts", "S MAGIC"),
   ("tlprt", "TELEPORT"), ("vti", "S2S IPSEC"), ("tunovpnc", "OVPN CLT"),
   ("tun", "OVPN TUN"), ("vtun", "OVPN VTN"), ("l2tp", "L2TP SRV")]

/-- tests/test_vpn_discovery.py: the post-fix VPN_INTERFACE_PREFIXES. -/
def testSuiteVPN_INTERFACE_PREFIXES : List String :=
  ["wgsrv", "wgclt", "wgsts", "tlprt", "vti", "tunovpnc", "tun", "vtun", "l2tp"]

/-- tests/test_vpn_discovery.py: the post-fix VPN_PREFIX_DESCRIPTIONS keys. -/
def testSuiteVPN_PREFIX_DESCRIPTIONS : List (String × String) :=
  [("wgsrv", "WireGuard Server"), ("wgclt", "WireGuard Client"),
   ("wgsts", "Site Magic"), ("tlprt", "Teleport"), ("vti", "Site-to-Site IPsec"),
   ("tunovpnc", "OpenVPN Client"), ("tun", "OpenVPN / Tunnel 1"),
   ("vtun", "OpenVPN / Tunnel 2"), ("l2tp", "L2TP Server")]

example : firstStartswithMatch VPN_INTERFACE_PREFIXES "tunovpnc1" = some "tun" := by decide
example : firstStartswithMatch testSuiteVPN_INTERFACE_PREFIXES "tunovpnc1" =
    some "tunovpnc" := by decide
example : deriveDirection ["ppp0"] [] false none "ppp0" "" "TEST-B-1" "255.255.255.255"
    "8.8.8.8" = some "inbound" := by decide
example : deriveDirection ["ppp0"] [] false none "ppp0" "br0" "X" "10.0.0.5"
    "255.255.255.255" = some "local" := by decide
example : deriveDirection ["ppp0"] [] false none "" "" "" "" "" = none := by decide
example : parseSyslogTimestamp ⟨2026, 1⟩ "Dec" "31" "23:59:59" =
    some ⟨2025, 12, 31, 23, 59, 59⟩ := by decide

/-! ## db.py threat cache (`ip_threats`) and blacklist.py -/

/-- One `ip_threats` row (without the key column). -/
structure TRow where
  score : Option Int := none
  cats : Option (List String) := none
  usageType : Option String := none
  hostnames : Option String := none
  totalReports : Option Int := none
  lastReported : Option String := none
  isWhitelisted : Option Bool := none
  isTor : Option Bool := none
  lookedUpAt : Int := 0
deriving DecidableEq, Repr

/-- The `threat_data` dict passed to `Database.upsert_threat`; `none`
models an absent key. -/
structure TData where
  score : Option Int := none
  cats : Option (List String) := none
  usageType : Option String := none
  hostnames : Option String := none
  totalReports : Option Int := none
  lastReported : Option String := none
  isWhitelisted : Option Bool := none
  isTor : Option Bool := none
deriving DecidableEq, Repr

/-- The `ip_threats` table keyed by the stored `ip` text. -/
abbrev ThreatTable := List (String × TRow)

/-- SQL `INSERT ... ON CONFLICT (ip) DO UPDATE`: insert a fresh row or
rewrite the conflicting row in place. -/
def upsertRowAt (t : ThreatTable) (k : String) (ins : TRow) (upd : TRow → TRow) :
    ThreatTable :=
  if (List.lookup k t).isSome then
    t.map (fun p => if p.1 = k then (p.1, upd p.2) else p)
  else t ++ [(k, ins)]

/-- The exclusion set built by `upsert_threat`, `blacklist.fetch_and_store`
and `routes/abuseipdb.enrich_ip`: normalised forms of every parseable
`wan_ips` and `gateway_ips` config entry. -/
def excludedSet (wan gw : List String) : List String :=
  (wan ++ gw).filterMap (fun s => (pythonIpAddress s).map printIP)

/-- db.Database.upsert_threat: normalise the key, skip excluded IPs, else
upsert with COALESCE on detail fields and a refreshed `looked_up_at`. -/
def upsertThreat (wan gw : List String) (now : Int) (t : ThreatTable)
    (ip : String) (d : TData) : ThreatTable :=
  let normalized := normalizeIP ip
  let excluded := excludedSet wan gw
  if excluded.contains normalized then t
  else
    upsertRowAt t normalized
      { score := some (d.score.getD 0), cats := some (d.cats.getD []),
        usageType := d.usageType, hostnames := d.hostnames,
        totalReports := d.totalReports, lastReported := d.lastReported,
        isWhitelisted := d.isWhitelisted, isTor := d.isTor, lookedUpAt := now }
      (fun old =>
        { score := some (d.score.getD 0), cats := some (d.cats.getD []),
          usageType := d.usageType.or old.usageType,
          hostnames := d.hostnames.or old.hostnames,
          totalReports := d.totalReports.or old.totalReports,
          lastReported := d.lastReported.or old.lastReported,
          isWhitelisted := d.isWhitelisted.or old.isWhitelisted,
          isTor := d.isTor.or old.isTor, lookedUpAt := now })

/-- Postgres `array_length(a, 1) > 1` (NULL and empty arrays give NULL,
which the CASE treats as false). -/
def arrayLenGtOne (cats : Option (List String)) : Bool :=
  match cats with
  | some l => l.length > 1
  | none => false

/-- db.Database.bulk_upsert_threats: per entry `(ip, score, categories)`,
insert, or merge with `GREATEST` on the score (NULL-ignoring) and keep the
old categories only when they hold more than one element. -/
def bulkUpsertThreats (now : Int) (t : ThreatTable)
    (entries : List (String × Int × List String)) : ThreatTable :=
  entries.foldl
    (fun acc e =>
      upsertRowAt acc e.1
        { score := some e.2.1, cats := some e.2.2, lookedUpAt := now }
        (fun old =>
          { old with
            score := some (match old.score with
              | none => e.2.1
              | some o => max o e.2.1),
            cats := if arrayLenGtOne old.cats then old.cats else some e.2.2,
            lookedUpAt := now }))
    t

/-- One item of the blacklist API response; `ipAddress = ""` models a
missing or falsy `ipAddress` field, which the fetcher skips. -/
structure BLItem where
  ipAddress : String := ""
  score : Int := 100
deriving DecidableEq, Repr

/-- blacklist.BlacklistFetcher.fetch_and_store, entry construction:
`(ip, score, ['blacklist'])` for every item with a truthy ipAddress. -/
def blacklistEntries (data : List BLItem) : List (String × Int × List String) :=
  (data.filter (fun i => i.ipAddress ≠ "")).map
    (fun i => (i.ipAddress, i.score, ["blacklist"]))

/-- blacklist.BlacklistFetcher.fetch_and_store, after the HTTP response is
decoded: build entries, filter out WAN/gateway IPs when the exclusion set
is non-empty, and bulk-upsert. -/
def blacklistFetchStore (wan gw : List String) (now : Int) (t : ThreatTable)
    (data : List BLItem) : ThreatTable :=
  let entries := blacklistEntries data
  let excluded := excludedSet wan gw
  let entries :=
    if excluded ≠ [] then
      entries.filter (fun e => ! excluded.contains (normalizeIP e.1))
    else entries
  bulkUpsertThreats now t entries

/-- Spec §3.2 invariant: no `ip_threats` row keyed by a current WAN or
gateway IP. -/
def threatInv (wan gw : List String) (t : ThreatTable) : Prop :=
  ∀ p ∈ t, p.1 ∉ wan ∧ p.1 ∉ gw

instance (wan gw : List String) (t : ThreatTable) : Decidable (threatInv wan gw t) := by
  unfold threatInv; infer_instance

/-- Every canonically-written config entry lands in the exclusion set. -/
theorem mem_excludedSet_of_canonical {wan gw : List String} {s : String}
    (hc : canonicalIP s) (hs : s ∈ wan ++ gw) : s ∈ excludedSet wan gw := by
  obtain ⟨hparse, hnorm⟩ := hc
  obtain ⟨a, ha⟩ := Option.isSome_iff_exists.mp hparse
  have hp : printIP a = s := by
    unfold normalizeIP at hnorm
    rw [ha] at hnorm
    exact hnorm
  unfold excludedSet
  refine List.mem_filterMap.mpr ⟨s, hs, ?_⟩
  rw [ha, Option.map_some']
  exact congrArg some hp

/-- Keys of an upsert: the upserted key or a key already present. -/
theorem mem_upsertRowAt {t : ThreatTable} {k : String} {ins : TRow}
    {upd : TRow → TRow} {p : String × TRow} (hp : p ∈ upsertRowAt t k ins upd) :
    p.1 = k ∨ ∃ q ∈ t, p.1 = q.1 := by
  unfold upsertRowAt at hp
  by_cases h : (List.lookup k t).isSome
  · rw [if_pos h] at hp
    obtain ⟨q, hq, hqe⟩ := List.mem_map.mp hp
    by_cases hk : q.1 = k
    · left; rw [if_pos hk] at hqe; rw [← hqe]; exact hk
    · right; rw [if_neg hk] at hqe; exact ⟨q, hq, by rw [← hqe]⟩
  · rw [if_neg h] at hp
    rcases List.mem_append.mp hp with h1 | h1
    · right; exact ⟨p, h1, rfl⟩
    · left
      have : p = (k, ins) := List.mem_singleton.mp h1
      rw [this]

/-- A bulk upsert whose entry keys avoid WAN and gateway IPs preserves the
invariant. -/
theorem bulkUpsert_preserves_inv {wan gw : List String} {now : Int}
    {entries : List (String × Int × List String)} :
    ∀ {t : ThreatTable}, threatInv wan gw t →
      (∀ e ∈ entries, e.1 ∉ wan ∧ e.1 ∉ gw) →
      threatInv wan gw (bulkUpsertThreats now t entries) := by
  induction entries with
  | nil => intro t hinv _; exact hinv
  | cons e es ih =>
    intro t hinv hkeys
    unfold bulkUpsertThreats
    rw [List.foldl_cons]
    have hstep : threatInv wan gw (upsertRowAt t e.1
        { score := some e.2.1, cats := some e.2.2, lookedUpAt := now }
        (fun old =>
          { old with
            score := some (match old.score with
              | none => e.2.1
              | some o => max o e.2.1),
            cats := if arrayLenGtOne old.cats then old.cats else some e.2.2,
            lookedUpAt := now })) := by
      intro p hp
      rcases mem_upsertRowAt hp with h | ⟨q, hq, hqe⟩
      · rw [h]; exact hkeys e (List.mem_cons_self e es)
      · rw [hqe]; exact hinv q hq
    exact ih hstep (fun x hx => hkeys x (List.mem_cons_of_mem e hx))


/-- Lookup across the in-place conflict update of `upsertRowAt`. -/
theorem lookup_map_update (t : List (String × TRow)) (k : String) (upd : TRow → TRow) :
    List.lookup k (t.map (fun p => if p.1 = k then (p.1, upd p.2) else p)) =
      (List.lookup k t).map upd := by
  induction t with
  | nil => rfl
  | cons hd tl ih =>
    obtain ⟨a, b⟩ := hd
    by_cases hk : a = k
    · subst hk
      rw [List.map_cons, if_pos (show (a, b).1 = a from rfl)]
      simp [List.lookup]
    · have hb : (k == a) = false := beq_eq_false_iff_ne.mpr (Ne.symm hk)
      rw [List.map_cons, if_neg (show ¬ (a, b).1 = k from hk)]
      simp only [List.lookup, hb]
      exact ih

/-- Lookup falls through to the appended tail when the key is absent. -/
theorem lookup_append_right (t l2 : List (String × TRow)) (k : String)
    (h : List.lookup k t = none) : List.lookup k (t ++ l2) = List.lookup k l2 := by
  induction t with
  | nil => rfl
  | cons hd tl ih =>
    obtain ⟨a, b⟩ := hd
    by_cases hk : k = a
    · subst hk
      simp [List.lookup] at h
    · have hb : (k == a) = false := beq_eq_false_iff_ne.mpr hk
      simp only [List.lookup, hb] at h
      simp only [List.cons_append, List.lookup, hb]
      exact ih h

theorem lookup_upsertRowAt_hit {t : ThreatTable} {k : String} {ins : TRow}
    {upd : TRow → TRow} {old : TRow} (h : List.lookup k t = some old) :
    List.lookup k (upsertRowAt t k ins upd) = some (upd old) := by
  unfold upsertRowAt
  rw [if_pos (by rw [h]; rfl), lookup_map_update, h, Option.map_some']

theorem lookup_upsertRowAt_miss {t : ThreatTable} {k : String} {ins : TRow}
    {upd : TRow → TRow} (h : List.lookup k t = none) :
    List.lookup k (upsertRowAt t k ins upd) = some ins := by
  unfold upsertRowAt
  rw [if_neg (by rw [h]; simp), lookup_append_right t _ k h]
  simp [List.lookup]

theorem contains_iff_mem {l : List String} {a : String} : l.contains a ↔ a ∈ l := by
  simp [List.contains, List.elem_iff]

/-- Length of a stored category array, NULL as zero. -/
def catsLen (cats : Option (List String)) : Nat :=
  match cats with
  | some l => l.length
  | none => 0

/-- C1: with every configured WAN and gateway entry a canonically-written
IP literal, both threat-cache write paths preserve the invariant that no
`ip_threats` row is keyed by a WAN or gateway IP: `upsert_threat` returns
without writing when the normalised input is excluded, and the blacklist
fetch filters excluded IPs before its bulk upsert. -/
theorem claim_C1 (wan gw : List String) (hc : ∀ s ∈ wan ++ gw, canonicalIP s) :
    (∀ (now : Int) (t : ThreatTable) (ip : String) (d : TData),
      threatInv wan gw t → threatInv wan gw (upsertThreat wan gw now t ip d)) ∧
    (∀ (now : Int) (t : ThreatTable) (data : List BLItem),
      threatInv wan gw t → threatInv wan gw (blacklistFetchStore wan gw now t data)) := by
  have notIn : ∀ (s : String), s ∉ excludedSet wan gw → s ∉ wan ∧ s ∉ gw := by
    intro s hno
    constructor
    · intro hmem
      exact hno (mem_excludedSet_of_canonical
        (hc _ (List.mem_append.mpr (Or.inl hmem))) (List.mem_append.mpr (Or.inl hmem)))
    · intro hmem
      exact hno (mem_excludedSet_of_canonical
        (hc _ (List.mem_append.mpr (Or.inr hmem))) (List.mem_append.mpr (Or.inr hmem)))
  constructor
  · intro now t ip d hinv
    unfold upsertThreat
    by_cases hex : (excludedSet wan gw).contains (normalizeIP ip) = true
    · rw [if_pos hex]
      exact hinv
    · rw [if_neg hex]
      intro p hp
      rcases mem_upsertRowAt hp with h | ⟨q, hq, hqe⟩
      · rw [h]
        exact notIn _ (fun hm => hex (contains_iff_mem.mpr hm))
      · rw [hqe]; exact hinv q hq
  · intro now t data hinv
    unfold blacklistFetchStore
    apply bulkUpsert_preserves_inv hinv
    intro e he
    by_cases hne : excludedSet wan gw ≠ []
    · rw [if_pos hne] at he
      obtain ⟨hmem, hkeep⟩ := List.mem_filter.mp he
      constructor
      · intro hw
        have hcan := hc e.1 (List.mem_append.mpr (Or.inl hw))
        have hin : (excludedSet wan gw).contains e.1 = true :=
          contains_iff_mem.mpr (mem_excludedSet_of_canonical hcan
            (List.mem_append.mpr (Or.inl hw)))
        rw [hcan.2, hin] at hkeep
        simp at hkeep
      · intro hw
        have hcan := hc e.1 (List.mem_append.mpr (Or.inr hw))
        have hin : (excludedSet wan gw).contains e.1 = true :=
          contains_iff_mem.mpr (mem_excludedSet_of_canonical hcan
            (List.mem_append.mpr (Or.inr hw)))
        rw [hcan.2, hin] at hkeep
        simp at hkeep
    · rw [if_neg hne] at he
      push_neg at hne
      constructor
      · intro hw
        have hin : e.1 ∈ excludedSet wan gw :=
          mem_excludedSet_of_canonical (hc e.1 (List.mem_append.mpr (Or.inl hw)))
            (List.mem_append.mpr (Or.inl hw))
        rw [hne] at hin
        exact absurd hin (List.not_mem_nil e.1)
      · intro hw
        have hin : e.1 ∈ excludedSet wan gw :=
          mem_excludedSet_of_canonical (hc e.1 (List.mem_append.mpr (Or.inr hw)))
            (List.mem_append.mpr (Or.inr hw))
        rw [hne] at hin
        exact absurd hin (List.not_mem_nil e.1)

theorem claim_C1_witness :
    (∀ s ∈ ["203.0.113.4"] ++ ["192.168.1.1"], canonicalIP s) ∧
    threatInv ["203.0.113.4"] ["192.168.1.1"]
      (upsertThreat ["203.0.113.4"] ["192.168.1.1"] 5
        [("8.8.8.8", { score := some 10 })] "203.0.113.4" {}) ∧
    threatInv ["203.0.113.4"] ["192.168.1.1"]
      (blacklistFetchStore ["203.0.113.4"] ["192.168.1.1"] 5
        [("8.8.8.8", { score := some 10 })]
        [{ ipAddress := "203.0.113.4" }, { ipAddress := "9.9.9.9", score := 80 }]) := by
  refine ⟨by decide, ?_, ?_⟩
  · exact (claim_C1 ["203.0.113.4"] ["192.168.1.1"] (by decide)).1 5
      [("8.8.8.8", { score := some 10 })] "203.0.113.4" {} (by decide)
  · exact (claim_C1 ["203.0.113.4"] ["192.168.1.1"] (by decide)).2 5
      [("8.8.8.8", { score := some 10 })]
      [{ ipAddress := "203.0.113.4" }, { ipAddress := "9.9.9.9", score := 80 }] (by decide)

/-- Year assigned by `parse_syslog_timestamp`: one year is subtracted
exactly when the parsed month is more than six months ahead of the
receiver clock month. -/
theorem parseSyslog_year {now : NowClock} {month day timeStr : String} {dt : LocalDT}
    (h : parseSyslogTimestamp now month day timeStr = some dt) :
    dt.year =
      if ((monthNumber month : Int) - (now.month : Int) > 6) then now.year - 1
      else now.year := by
  unfold parseSyslogTimestamp at h
  split at h
  · rename_i hs ms ss _
    simp only [Option.bind_eq_bind, Option.bind_eq_some] at h
    obtain ⟨d, _, h⟩ := h
    obtain ⟨hh, _, h⟩ := h
    obtain ⟨mi, _, h⟩ := h
    obtain ⟨sec, _, h⟩ := h
    revert h
    generalize (if ((monthNumber month : Int) - (now.month : Int) > 6) then now.year - 1
      else now.year) = y
    intro h
    split at h
    · rw [← Option.some_inj.mp h]
    · exact absurd h (by simp)
  · exact absurd h (by simp)

/-- C2: the spec and the test suite require the prefix `tunovpnc` to be
tried before `tun` in every ordered startswith structure, but parsers.py
holds no `tunovpnc` entry at all, so an OpenVPN-client interface name such
as `tunovpnc1` first matches `tun` there; the unifi_api map and the test
mirrors place `tunovpnc` first as the spec states. -/
theorem claim_C2 :
    firstStartswithMatch (VPN_PREFIX_BADGES.map Prod.fst) "tunovpnc1" = some "tun" ∧
    firstStartswithMatch VPN_INTERFACE_PREFIXES "tunovpnc1" = some "tun" ∧
    firstStartswithMatch (VPN_PREFIX_DESCRIPTIONS.map Prod.fst) "tunovpnc1" = some "tun" ∧
    "tunovpnc" ∉ VPN_PREFIX_BADGES.map Prod.fst ∧
    "tunovpnc" ∉ VPN_INTERFACE_PREFIXES ∧
    "tunovpnc" ∉ VPN_PREFIX_DESCRIPTIONS.map Prod.fst ∧
    firstStartswithMatch (testSuiteVPN_PREFIX_BADGES.map Prod.fst) "tunovpnc1" =
      some "tunovpnc" ∧
    firstStartswithMatch testSuiteVPN_INTERFACE_PREFIXES "tunovpnc1" = some "tunovpnc" ∧
    firstStartswithMatch (testSuiteVPN_PREFIX_DESCRIPTIONS.map Prod.fst) "tunovpnc1" =
      some "tunovpnc" ∧
    List.lookup "openvpn-client" VPN_TYPE_MAP = some ("tunovpnc", "OVPN CLT") := by
  decide

/-- C3: `parse_syslog_timestamp` assigns the previous year exactly when
`month_number - current_month > 6`, and a same-month (clock-skew) log
always keeps the current year. -/
theorem claim_C3 :
    (∀ (now : NowClock) (month day timeStr : String) (dt : LocalDT),
      parseSyslogTimestamp now month day timeStr = some dt →
      dt.year =
        if ((monthNumber month : Int) - (now.month : Int) > 6) then now.year - 1
        else now.year) ∧
    (∀ (now : NowClock) (month day timeStr : String) (dt : LocalDT),
      parseSyslogTimestamp now month day timeStr = some dt →
      monthNumber month = now.month → dt.year = now.year) := by
  refine ⟨fun now month day timeStr dt h => parseSyslog_year h, ?_⟩
  intro now month day timeStr dt h heq
  rw [parseSyslog_year h, heq]
  simp

theorem claim_C3_witness :
    parseSyslogTimestamp ⟨2026, 1⟩ "Dec" "31" "23:59:59" =
      some ⟨2025, 12, 31, 23, 59, 59⟩ ∧
    (⟨2025, 12, 31, 23, 59, 59⟩ : LocalDT).year =
      (if ((monthNumber "Dec" : Int) - ((⟨2026, 1⟩ : NowClock).month : Int) > 6) then
        (⟨2026, 1⟩ : NowClock).year - 1 else (⟨2026, 1⟩ : NowClock).year) ∧
    parseSyslogTimestamp ⟨2026, 2⟩ "Feb" "8" "16:43:54" =
      some ⟨2026, 2, 8, 16, 43, 54⟩ ∧
    (⟨2026, 2, 8, 16, 43, 54⟩ : LocalDT).year = (⟨2026, 2⟩ : NowClock).year :=
  ⟨by decide,
   claim_C3.1 ⟨2026, 1⟩ "Dec" "31" "23:59:59" ⟨2025, 12, 31, 23, 59, 59⟩ (by decide),
   by decide,
   claim_C3.2 ⟨2026, 2⟩ "Feb" "8" "16:43:54" ⟨2026, 2, 8, 16, 43, 54⟩ (by decide) (by decide)⟩

/-- C4 counterexample: a firewall record with no `interface_out`, no
`interface_in`, and none of the earlier direction rules applicable gets
direction `None` from `derive_direction`, not `local` as the claim states
for `interface_in` absent and outside `wan_interfaces`. -/
theorem claim_C4_counterexample :
    isBroadcastOrMulticast "" = false ∧
    strHasSub "" "DNAT" = false ∧
    strHasSub "" "PREROUTING" = false ∧
    ("" ∈ (["ppp0"] : List String)) = False ∧
    deriveDirection ["ppp0"] [] false none "" "" "" "" "" = none ∧
    deriveDirection ["ppp0"] [] false none "" "" "" "" "" ≠ some "local" := by
  decide

/-- C4 amended: when `interface_in` is present, `interface_out` is absent,
and the earlier rules (broadcast destination, WAN-source-staying-local,
DNAT/PREROUTING) do not apply, `derive_direction` returns `inbound` when
`interface_in` is a WAN interface and `local` otherwise; with both
interfaces absent it returns `None` instead. -/
theorem claim_C4 (wanIfaces wanIPs : List String) (byIfacePresent : Bool)
    (curWanIp : Option String) (ifaceIn ruleName srcIp dstIp : String)
    (hin : ifaceIn ≠ "")
    (hbc : isBroadcastOrMulticast dstIp = false)
    (hsrc : srcIp = "" ∨
      srcIp ∉ wanIPsAfterLearn wanIfaces wanIPs byIfacePresent curWanIp ifaceIn ruleName dstIp)
    (hdnat : strHasSub ruleName "DNAT" = false)
    (hprer : strHasSub ruleName "PREROUTING" = false) :
    deriveDirection wanIfaces wanIPs byIfacePresent curWanIp ifaceIn "" ruleName srcIp dstIp =
      some (if wanIfaces.contains ifaceIn then "inbound" else "local") := by
  unfold deriveDirection
  rw [if_neg (by intro hand; exact hin hand.1)]
  rw [if_neg (by rw [hbc]; simp)]
  rw [if_neg ?hsrcneg]
  case hsrcneg =>
    rintro ⟨hne, hmemb, _⟩
    rcases hsrc with h | h
    · exact hne h
    · exact h (contains_iff_mem.mp hmemb)
  rw [if_neg (by rw [hdnat, hprer]; simp)]
  rw [if_pos rfl]

theorem claim_C4_witness :
    deriveDirection ["ppp0"] [] false none "ppp0" "" "FW-B-1" "198.51.100.7" "203.0.113.4" =
      some (if (["ppp0"] : List String).contains "ppp0" then "inbound" else "local") :=
  claim_C4 ["ppp0"] [] false none "ppp0" "FW-B-1" "198.51.100.7" "203.0.113.4"
    (by decide) (by decide) (Or.inr (by decide)) (by decide) (by decide)

/-- C5 counterexample: a firewall line whose SRC field is the broadcast
address 255.255.255.255 is not classified `local`: the broadcast rule in
`derive_direction` tests the destination, so with a WAN `IN=` and no
`OUT=` the line classifies `inbound`. -/
theorem claim_C5_counterexample :
    deriveDirection ["ppp0"] [] false none "ppp0" "" "TEST-B-1" "255.255.255.255" "8.8.8.8" =
      some "inbound" ∧
    deriveDirection ["ppp0"] [] false none "ppp0" "" "TEST-B-1" "255.255.255.255" "8.8.8.8" ≠
      some "local" := by
  decide

/-- C5 amended: the broadcast rule applies to the destination: every
firewall record carrying at least one interface whose `dst_ip` is
255.255.255.255 is classified `local`, regardless of interfaces, rule
name and source IP. -/
theorem claim_C5 (wanIfaces wanIPs : List String) (byIfacePresent : Bool)
    (curWanIp : Option String) (ifaceIn ifaceOut ruleName srcIp : String)
    (hif : ¬ (ifaceIn = "" ∧ ifaceOut = "")) :
    deriveDirection wanIfaces wanIPs byIfacePresent curWanIp ifaceIn ifaceOut ruleName srcIp
      "255.255.255.255" = some "local" := by
  unfold deriveDirection
  rw [if_neg hif]
  rw [if_pos (by decide)]

theorem claim_C5_witness :
    deriveDirection ["eth8"] ["203.0.113.4"] true (some "203.0.113.4") "br0" "eth8"
      "WAN_OUT-A-9" "10.0.0.7" "255.255.255.255" = some "local" :=
  claim_C5 ["eth8"] ["203.0.113.4"] true (some "203.0.113.4") "br0" "eth8"
    "WAN_OUT-A-9" "10.0.0.7" (by decide)

/-- C7: a blacklist bulk-upsert row merging into an existing `ip_threats`
entry keeps `max(old, new)` as the score, keeps whichever category set is
longer (the old set survives only when it holds more than one element,
and the incoming blacklist set is the singleton), and refreshes
`looked_up_at`; a row for a fresh IP is inserted as given. -/
theorem claim_C7 :
    (∀ (now : Int) (t : ThreatTable) (ip : String) (score : Int) (old : TRow),
      List.lookup ip t = some old →
      ∃ merged,
        List.lookup ip (bulkUpsertThreats now t [(ip, score, ["blacklist"])]) = some merged ∧
        merged.score = some (match old.score with
          | none => score
          | some o => max o score) ∧
        (merged.cats = old.cats ∨ merged.cats = some ["blacklist"]) ∧
        catsLen merged.cats = max (catsLen old.cats) 1 ∧
        merged.lookedUpAt = now) ∧
    (∀ (now : Int) (t : ThreatTable) (ip : String) (score : Int),
      List.lookup ip t = none →
      List.lookup ip (bulkUpsertThreats now t [(ip, score, ["blacklist"])]) =
        some { score := some score, cats := some ["blacklist"], lookedUpAt := now }) := by
  constructor
  · intro now t ip score old h
    unfold bulkUpsertThreats
    rw [List.foldl_cons, List.foldl_nil]
    refine ⟨_, lookup_upsertRowAt_hit h, rfl, ?_, ?_, rfl⟩
    · by_cases harr : arrayLenGtOne old.cats = true
      · left; simp [harr]
      · right; simp [harr]
    · by_cases harr : arrayLenGtOne old.cats = true
      · simp only [harr, if_true]
        cases hc : old.cats with
        | none => rw [hc] at harr; simp [arrayLenGtOne] at harr
        | some l =>
          rw [hc] at harr
          have : l.length > 1 := by simpa [arrayLenGtOne] using harr
          simp [catsLen, hc]
          omega
      · simp only [harr]
        rw [if_neg (by simp [harr])]
        cases hc : old.cats with
        | none => simp [catsLen]
        | some l =>
          rw [hc] at harr
          have : ¬ l.length > 1 := by simpa [arrayLenGtOne] using harr
          simp [catsLen, hc]
          omega
  · intro now t ip score h
    unfold bulkUpsertThreats
    rw [List.foldl_cons, List.foldl_nil]
    exact lookup_upsertRowAt_miss h

theorem claim_C7_witness :
    (∃ merged,
      List.lookup "1.2.3.4" (bulkUpsertThreats 7
        [("1.2.3.4", { score := some 20, cats := some ["18", "22"] })]
        [("1.2.3.4", 90, ["blacklist"])]) = some merged ∧
      merged.score = some (match (some (20 : Int) : Option Int) with
        | none => (90 : Int)
        | some o => max o 90) ∧
      (merged.cats = some ["18", "22"] ∨ merged.cats = some ["blacklist"]) ∧
      catsLen merged.cats = max (catsLen (some ["18", "22"])) 1 ∧
      merged.lookedUpAt = 7) ∧
    List.lookup "9.9.9.9" (bulkUpsertThreats 7 [] [("9.9.9.9", 80, ["blacklist"])]) =
      some { score := some 80, cats := some ["blacklist"], lookedUpAt := 7 } :=
  ⟨claim_C7.1 7 [("1.2.3.4", { score := some 20, cats := some ["18", "22"] })]
      "1.2.3.4" 90 { score := some 20, cats := some ["18", "22"] } (by decide),
   claim_C7.2 7 [] "9.9.9.9" 80 (by decide)⟩

/-! ## enrichment.py: AbuseIPDB client, rate limiting, stats serialisation -/

/-- Rate-limit state of `AbuseIPDBEnricher` (`None` = not yet learned).
The reset header is modelled as numeric where the source keeps the raw
header string and parses it with `float`. -/
structure RateState where
  limit : Option Int := none
  remaining : Option Int := none
  resetAt : Option Int := none
  pausedUntil : Int := 0
deriving DecidableEq, Repr

/-- AbuseIPDBEnricher._check_rate_limit (SAFETY_BUFFER = 0): hard pause
first, then quota-reset clearing, then bootstrap / remaining gate.
Returns the gate decision and the possibly cleared state. -/
def checkRateLimit (r : RateState) (now : Int) : Bool × RateState :=
  if now < r.pausedUntil then (false, r)
  else
    let r :=
      match r.resetAt with
      | some rst =>
        if now > rst then { r with remaining := none, resetAt := none, pausedUntil := 0 }
        else r
      | none => r
    match r.remaining with
    | none => (true, r)
    | some rem => (rem > 0, r)

/-- The in-memory `TTLCache` contents: value and insertion time per key. -/
abbrev MemCache := List (String × (TData × Int))

/-- TTLCache.get: fresh value, or none (deleting an expired entry). -/
def memCacheGet (m : MemCache) (ttl now : Int) (k : String) : Option TData × MemCache :=
  match List.lookup k m with
  | none => (none, m)
  | some (v, t) =>
    if now - t < ttl then (some v, m)
    else (none, m.filter (fun p => p.1 ≠ k))

/-- TTLCache.set: overwrite or append with the current time. -/
def memCacheSet (m : MemCache) (now : Int) (k : String) (v : TData) : MemCache :=
  if (List.lookup k m).isSome then
    m.map (fun p => if p.1 = k then (p.1, (v, now)) else p)
  else m ++ [(k, (v, now))]

/-- db.Database.get_threat_cache: the row when fresher than the age
window, converted to the result dict (string detail fields only when
truthy, counters and flags only when not NULL). -/
def getThreatCache (t : ThreatTable) (ip : String) (now : Int) (maxAgeDays : Int) :
    Option TData :=
  match List.lookup ip t with
  | some row =>
    if row.lookedUpAt > now - maxAgeDays * 86400 then
      some { score := row.score, cats := some (row.cats.getD []),
             usageType := row.usageType.bind (fun s => if s = "" then none else some s),
             hostnames := row.hostnames.bind (fun s => if s = "" then none else some s),
             totalReports := row.totalReports,
             lastReported := row.lastReported.bind (fun s => if s = "" then none else some s),
             isWhitelisted := row.isWhitelisted, isTor := row.isTor }
    else none
  | none => none

/-- Client state consulted by `AbuseIPDBEnricher.lookup` before any HTTP
request. -/
structure EnrState where
  enabled : Bool := true
  excluded : List String := []
  mem : MemCache := []
  threats : ThreatTable := []
  rate : RateState := {}
deriving DecidableEq, Repr

/-- Control flow of `AbuseIPDBEnricher.lookup` up to its I/O boundary:
`hit` returns a cached entry, `empty` returns `{}` with no HTTP request,
`api` marks that an HTTP request to the threat service is issued. -/
inductive LookupOutcome where
  | hit (result : TData) (st : EnrState)
  | empty (st : EnrState)
  | api (st : EnrState)
deriving DecidableEq, Repr

/-- AbuseIPDBEnricher.lookup, up to the HTTP request: disabled or
excluded IPs return `{}`; the memory cache, then the persistent cache
(with promotion), then the rate-limit gate. -/
def lookupGate (st : EnrState) (now : Int) (ip : String) : LookupOutcome :=
  if ¬ st.enabled then .empty st
  else if st.excluded.contains ip then .empty st
  else
    match memCacheGet st.mem 86400 now ip with
    | (some v, m) => .hit v { st with mem := m }
    | (none, m) =>
      let st1 : EnrState := { st with mem := m }
      match getThreatCache st1.threats ip now 4 with
      | some v => .hit v { st1 with mem := memCacheSet st1.mem now ip v }
      | none =>
        let gate := checkRateLimit st1.rate now
        let st2 : EnrState := { st1 with rate := gate.2 }
        if gate.1 then .api st2 else .empty st2

/-- The stats dict written by `AbuseIPDBEnricher._write_stats` (the
`updated_at` wall-clock string is modelled as the numeric time). -/
structure StatsFileData where
  limit : Option Int := none
  remaining : Option Int := none
  resetAt : Option Int := none
  pausedUntil : Option Int := none
  updatedAt : Int := 0
deriving DecidableEq, Repr

/-- AbuseIPDBEnricher._write_stats: serialise the rate state, with
`paused_until` only while it lies in the future. -/
def writeStatsFile (r : RateState) (now : Int) : StatsFileData :=
  { limit := r.limit, remaining := r.remaining, resetAt := r.resetAt,
    pausedUntil := if r.pausedUntil > now then some r.pausedUntil else none,
    updatedAt := now }

/-- The two stores the spec says must agree: the shared RAM-backed stats
file and the `abuseipdb_rate_limit` config-store key. -/
structure StatsWorld where
  file : Option StatsFileData := none
  cfgRateLimit : Option StatsFileData := none
deriving DecidableEq, Repr

/-- The serialisation performed after each threat API call (both the 429
handler and the success path end in `_write_stats`): the shared stats
file is rewritten; no code path in the repository writes the
`abuseipdb_rate_limit` config key (enrichment.py has no `set_config`
call and no other module sets that key), so the config store is
unchanged. -/
def afterCallSerialize (r : RateState) (now : Int) (w : StatsWorld) : StatsWorld :=
  { file := some (writeStatsFile r now), cfgRateLimit := w.cfgRateLimit }

/-- routes/abuseipdb.abuseipdb_status, stats selection: prefer the file;
fall back to the config value only when the file is missing or carries no
`limit`, and only when the config value has a `limit` or an active
pause. -/
def statusSelectStats (w : StatsWorld) (now : Int) : Option StatsFileData :=
  let stats := w.file
  let needFallback :=
    match stats with
    | none => true
    | some s => s.limit = none
  if needFallback then
    match w.cfgRateLimit with
    | some db =>
      let pauseActive :=
        match db.pausedUntil with
        | some p => now < p
        | none => false
      if db.limit.isSome || pauseActive then some db else stats
    | none => stats
  else stats

/-! ## enrichment.py / routes: public-IP validation -/

/-- enrichment._PRIVATE_NETWORKS (all IPv4), in source order. -/
def privateNetworksEnrichment : List (Nat × Nat) :=
  [(0, 8), (167772160, 8), (2886729728, 12), (3232235520, 16), (2130706432, 8),
   (2851995648, 16), (3758096384, 4), (4294967295, 32)]

/-- enrichment.is_public_ip. -/
def isPublicIp (s : String) : Bool :=
  if s = "" then false
  else
    match pythonIpAddress s with
    | some a => ! (privateNetworksEnrichment.any (fun p => memberOfV4Net a p.1 p.2))
    | none => false

/-- routes/abuseipdb.enrich_ip, first validation: the 400 `Not a public
IP` rejection fires exactly when `is_public_ip` is false. -/
def enrichRejectsNotPublic (ip : String) : Bool :=
  ! isPublicIp ip

/-- C6 counterexample: after a threat API call only the shared stats file
is rewritten; with a stale `abuseipdb_rate_limit` config value the two
stores disagree, refuting the claim that the state is serialised to both
and that they agree after every call. -/
theorem claim_C6_counterexample :
    (afterCallSerialize { limit := some 1000, remaining := some 420, resetAt := some 90000 } 5
      { cfgRateLimit := some { limit := some 1000, remaining := some 7 } }).file ≠
    (afterCallSerialize { limit := some 1000, remaining := some 420, resetAt := some 90000 } 5
      { cfgRateLimit := some { limit := some 1000, remaining := some 7 } }).cfgRateLimit := by
  decide

/-- C6 amended: after each threat API call the rate-limit state is
serialised to the shared stats file only; the `abuseipdb_rate_limit`
config key is never written, and API readers see the fresh state through
the file (falling back to the stale or absent config value only when the
file is missing or carries no limit). -/
theorem claim_C6 (r : RateState) (now : Int) (w : StatsWorld) (hl : r.limit ≠ none) :
    (afterCallSerialize r now w).file = some (writeStatsFile r now) ∧
    (afterCallSerialize r now w).cfgRateLimit = w.cfgRateLimit ∧
    statusSelectStats (afterCallSerialize r now w) now = some (writeStatsFile r now) := by
  refine ⟨rfl, rfl, ?_⟩
  unfold statusSelectStats afterCallSerialize writeStatsFile
  simp [hl]

theorem claim_C6_witness :
    (afterCallSerialize { limit := some 1000, remaining := some 420 } 5 {}).file =
      some (writeStatsFile { limit := some 1000, remaining := some 420 } 5) ∧
    (afterCallSerialize { limit := some 1000, remaining := some 420 } 5 {}).cfgRateLimit =
      StatsWorld.cfgRateLimit {} ∧
    statusSelectStats (afterCallSerialize { limit := some 1000, remaining := some 420 } 5 {}) 5 =
      some (writeStatsFile { limit := some 1000, remaining := some 420 } 5) :=
  claim_C6 { limit := some 1000, remaining := some 420 } 5 {} (by decide)

/-- C9: while the client is paused (`paused_until > now`) and the queried
IP is in neither the in-memory cache nor the fresh window of the
persistent cache, `lookup` returns empty, issues no HTTP request, and
leaves the whole client state (both caches included) unchanged. -/
theorem claim_C9 (st : EnrState) (now : Int) (ip : String)
    (hpaused : now < st.rate.pausedUntil)
    (hmem : List.lookup ip st.mem = none)
    (hdb : getThreatCache st.threats ip now 4 = none) :
    lookupGate st now ip = .empty st := by
  unfold lookupGate
  by_cases hen : st.enabled = true
  · rw [if_neg (by simp [hen])]
    by_cases hex : st.excluded.contains ip = true
    · rw [if_pos hex]
    · rw [if_neg hex]
      have hm : memCacheGet st.mem 86400 now ip = (none, st.mem) := by
        unfold memCacheGet
        rw [hmem]
      rw [hm]
      have hck : checkRateLimit st.rate now = (false, st.rate) := by
        unfold checkRateLimit
        rw [if_pos hpaused]
      simp only [hdb, hck]
      simp
  · rw [if_pos (by simp [hen])]

theorem claim_C9_witness :
    lookupGate
      { excluded := ["203.0.113.4"],
        mem := [("9.9.9.9", ({ score := some 3 }, 0))],
        threats := [("8.8.4.4", { score := some 11, lookedUpAt := 90 })],
        rate := { remaining := some 0, pausedUntil := 700 } } 100 "198.51.100.7" =
    .empty
      { excluded := ["203.0.113.4"],
        mem := [("9.9.9.9", ({ score := some 3 }, 0))],
        threats := [("8.8.4.4", { score := some 11, lookedUpAt := 90 })],
        rate := { remaining := some 0, pausedUntil := 700 } } :=
  claim_C9
    { excluded := ["203.0.113.4"],
      mem := [("9.9.9.9", ({ score := some 3 }, 0))],
      threats := [("8.8.4.4", { score := some 11, lookedUpAt := 90 })],
      rate := { remaining := some 0, pausedUntil := 700 } } 100 "198.51.100.7"
    (by decide) (by decide) (by decide)

/-- C10: every string that parses as an IPv6 address is accepted by
`is_public_ip` (the exclusion list is entirely IPv4 and containment is
version-checked), so the manual-enrich endpoint never rejects an IPv6
literal with the 400 `Not a public IP` error. -/
theorem claim_C10 :
    ∀ (s : String) (n : Nat), pythonIpAddress s = some (.v6 n) →
      isPublicIp s = true ∧ enrichRejectsNotPublic s = false := by
  intro s n h
  have hs : ¬ s = "" := by
    intro he
    rw [he] at h
    rw [show pythonIpAddress "" = none from by decide] at h
    exact absurd h (by simp)
  have hp : isPublicIp s = true := by
    unfold isPublicIp
    rw [if_neg hs, h]
    simp [privateNetworksEnrichment, memberOfV4Net]
  refine ⟨hp, ?_⟩
  unfold enrichRejectsNotPublic
  rw [hp]
  rfl

theorem claim_C10_witness :
    (isPublicIp "::1" = true ∧ enrichRejectsNotPublic "::1" = false) ∧
    (isPublicIp "fe80::1" = true ∧ enrichRejectsNotPublic "fe80::1" = false) ∧
    (isPublicIp "ff02::1" = true ∧ enrichRejectsNotPublic "ff02::1" = false) :=
  ⟨claim_C10 "::1" 1 (by decide),
   claim_C10 "fe80::1" 338288524927261089654018896841347694593 (by decide),
   claim_C10 "ff02::1" 338963523518870617245727861364146307073 (by decide)⟩

/-! ## backfill.py: one maintenance cycle under a zero API budget

The one-shot migration steps 0a..0c are gated off by their config flags
(`direction_backfill_pending` false, `enrichment_wan_fix_pending` false,
`abuse_hostname_fix_done` true), the steady state after first run; with
`remaining_budget = 0` the stale re-enrich step returns before any work
and the orphan-lookup step selects nothing. -/

/-- The `logs` columns read or written by the backfill patch steps. -/
structure LogRow where
  id : Nat := 0
  logType : String := ""
  ruleAction : Option String := none
  srcIp : Option String := none
  dstIp : Option String := none
  dstPort : Option Nat := none
  protocol : Option String := none
  serviceName : Option String := none
  threatScore : Option Int := none
  threatCats : Option (List String) := none
  abuseUsageType : Option String := none
  abuseHostnames : Option String := none
  abuseTotalReports : Option Int := none
  abuseLastReported : Option String := none
  abuseIsWhitelisted : Option Bool := none
  abuseIsTor : Option Bool := none
deriving DecidableEq, Repr

/-- Database state seen by one backfill cycle. -/
structure BackfillDB where
  logs : List LogRow := []
  threats : ThreatTable := []
deriving DecidableEq, Repr

/-- The bundled IANA `(port, protocol) -> service name` map. -/
abbrev ServiceCatalog := List ((Nat × String) × String)

/-- Modelled from the spec: `Enricher._is_remote_ip`, called by
`backfill._find_orphans` and `backfill._fix_wan_ip_enrichment`, is
defined nowhere in the repository sources.  Spec section 4.3: remote
means not private, loopback, link-local, multicast, or a known
WAN/gateway IP. -/
def isRemoteIp (wan gw : List String) (ip : String) : Bool :=
  match pythonIpAddress ip with
  | some a =>
    (! (memberOfV4Net a 167772160 8 || memberOfV4Net a 2886729728 12 ||
        memberOfV4Net a 3232235520 16 ||
        memberOfV6Net a 334965454937798799971759379190646833152 7 ||
        memberOfV4Net a 2130706432 8 || (a == .v6 1) ||
        memberOfV4Net a 2851995648 16 ||
        memberOfV6Net a 338288524927261089654018896841347694592 10 ||
        ipIsMulticast a))
      && ! wan.contains ip && ! gw.contains ip
  | none => false

/-- backfill._patch_service_names, effect on one row: a firewall row with
no service name gets the catalog name joined on (dst_port, protocol). -/
def patchServiceRow (catalog : ServiceCatalog) (r : LogRow) : LogRow :=
  if r.logType == "firewall" && r.serviceName == none then
    match r.dstPort, r.protocol with
    | some port, some proto =>
      match List.lookup (port, proto) catalog with
      | some name => { r with serviceName := some name }
      | none => r
    | _, _ => r
  else r

/-- Rows the service backfill touches (its rowcount). -/
def serviceCond (catalog : ServiceCatalog) (r : LogRow) : Bool :=
  r.logType == "firewall" && r.serviceName == none &&
    (match r.dstPort, r.protocol with
     | some port, some proto => (List.lookup (port, proto) catalog).isSome
     | _, _ => false)

/-- WHERE clause of `_patch_from_cache` pass 1 (src side). -/
def patchNullCondSrc (threats : ThreatTable) (wan : List String) (r : LogRow) : Bool :=
  match r.srcIp with
  | some s =>
    (List.lookup s threats).isSome && ! wan.contains s && r.threatScore == none &&
      r.logType == "firewall" && r.ruleAction == some "block"
  | none => false

/-- backfill._patch_from_cache pass 1, effect on one row: overwrite score
and categories from the cache entry, COALESCE the detail fields. -/
def patchNullRowSrc (threats : ThreatTable) (wan : List String) (r : LogRow) : LogRow :=
  match r.srcIp with
  | some s =>
    match List.lookup s threats with
    | some t =>
      if ! wan.contains s && r.threatScore == none && r.logType == "firewall" &&
          r.ruleAction == some "block" then
        { r with
          threatScore := t.score, threatCats := t.cats,
          abuseUsageType := r.abuseUsageType.or t.usageType,
          abuseHostnames := r.abuseHostnames.or t.hostnames,
          abuseTotalReports := r.abuseTotalReports.or t.totalReports,
          abuseLastReported := r.abuseLastReported.or t.lastReported,
          abuseIsWhitelisted := r.abuseIsWhitelisted.or t.isWhitelisted,
          abuseIsTor := r.abuseIsTor.or t.isTor }
      else r
    | none => r
  | none => r

/-- WHERE clause of `_patch_from_cache` pass 2 (dst side). -/
def patchNullCondDst (threats : ThreatTable) (wan : List String) (r : LogRow) : Bool :=
  match r.dstIp with
  | some s =>
    (List.lookup s threats).isSome && ! wan.contains s && r.threatScore == none &&
      r.logType == "firewall" && r.ruleAction == some "block"
  | none => false

/-- backfill._patch_from_cache pass 2 (dst side). -/
def patchNullRowDst (threats : ThreatTable) (wan : List String) (r : LogRow) : LogRow :=
  match r.dstIp with
  | some s =>
    match List.lookup s threats with
    | some t =>
      if ! wan.contains s && r.threatScore == none && r.logType == "firewall" &&
          r.ruleAction == some "block" then
        { r with
          threatScore := t.score, threatCats := t.cats,
          abuseUsageType := r.abuseUsageType.or t.usageType,
          abuseHostnames := r.abuseHostnames.or t.hostnames,
          abuseTotalReports := r.abuseTotalReports.or t.totalReports,
          abuseLastReported := r.abuseLastReported.or t.lastReported,
          abuseIsWhitelisted := r.abuseIsWhitelisted.or t.isWhitelisted,
          abuseIsTor := r.abuseIsTor.or t.isTor }
      else r
    | none => r
  | none => r

/-- Postgres `array_length(a, 1) > 0` (NULL and empty give false). -/
def catsPositive (c : Option (List String)) : Bool :=
  match c with
  | some l => ! l.isEmpty
  | none => false

/-- `a IS NULL OR array_length(a, 1) IS NULL OR array_length(a, 1) = 0`. -/
def catsEmptyish (c : Option (List String)) : Bool :=
  match c with
  | some l => l.isEmpty
  | none => true

/-- WHERE clause of `_patch_abuse_fields` pass 1 (src side). -/
def patchAbuseCondSrc (threats : ThreatTable) (wan : List String) (r : LogRow) : Bool :=
  match r.srcIp with
  | some s =>
    (match List.lookup s threats with
     | some t => t.usageType != none
     | none => false) && ! wan.contains s && r.threatScore != none &&
      r.abuseUsageType == none && r.logType == "firewall" && r.ruleAction == some "block"
  | none => false

/-- backfill._patch_abuse_fields pass 1, effect on one row: overwrite the
detail fields, and take the cache categories only when the row has none
and the cache has some. -/
def patchAbuseRowSrc (threats : ThreatTable) (wan : List String) (r : LogRow) : LogRow :=
  match r.srcIp with
  | some s =>
    match List.lookup s threats with
    | some t =>
      if ! wan.contains s && r.threatScore != none && r.abuseUsageType == none &&
          t.usageType != none && r.logType == "firewall" && r.ruleAction == some "block" then
        { r with
          abuseUsageType := t.usageType, abuseHostnames := t.hostnames,
          abuseTotalReports := t.totalReports, abuseLastReported := t.lastReported,
          abuseIsWhitelisted := t.isWhitelisted, abuseIsTor := t.isTor,
          threatCats :=
            if catsPositive t.cats && catsEmptyish r.threatCats then t.cats
            else r.threatCats }
      else r
    | none => r
  | none => r

/-- WHERE clause of `_patch_abuse_fields` pass 2 (dst side). -/
def patchAbuseCondDst (threats : ThreatTable) (wan : List String) (r : LogRow) : Bool :=
  match r.dstIp with
  | some s =>
    (match List.lookup s threats with
     | some t => t.usageType != none
     | none => false) && ! wan.contains s && r.threatScore != none &&
      r.abuseUsageType == none && r.logType == "firewall" && r.ruleAction == some "block"
  | none => false

/-- backfill._patch_abuse_fields pass 2 (dst side). -/
def patchAbuseRowDst (threats : ThreatTable) (wan : List String) (r : LogRow) : LogRow :=
  match r.dstIp with
  | some s =>
    match List.lookup s threats with
    | some t =>
      if ! wan.contains s && r.threatScore != none && r.abuseUsageType == none &&
          t.usageType != none && r.logType == "firewall" && r.ruleAction == some "block" then
        { r with
          abuseUsageType := t.usageType, abuseHostnames := t.hostnames,
          abuseTotalReports := t.totalReports, abuseLastReported := t.lastReported,
          abuseIsWhitelisted := t.isWhitelisted, abuseIsTor := t.isTor,
          threatCats :=
            if catsPositive t.cats && catsEmptyish r.threatCats then t.cats
            else r.threatCats }
      else r
    | none => r
  | none => r

/-- backfill._find_orphans: IPs on NULL-score firewall block rows that
are absent from `ip_threats`, src and dst sides unioned, restricted to
remote IPs. -/
def findOrphans (db : BackfillDB) (wan gw : List String) : List String :=
  let srcBranch := db.logs.filterMap (fun r =>
    if r.threatScore == none && r.logType == "firewall" && r.ruleAction == some "block" then
      match r.srcIp with
      | some s => if (List.lookup s db.threats).isNone then some s else none
      | none => none
    else none)
  let dstBranch := db.logs.filterMap (fun r =>
    if r.threatScore == none && r.logType == "firewall" && r.ruleAction == some "block" then
      match r.dstIp with
      | some s => if (List.lookup s db.threats).isNone then some s else none
      | none => none
    else none)
  ((srcBranch ++ dstBranch).dedup).filter (isRemoteIp wan gw)

/-- Observables of one backfill cycle. -/
structure CycleReport where
  patchedServices : Nat := 0
  patchedNull : Nat := 0
  patchedAbuse : Nat := 0
  reenriched : Nat := 0
  orphans : List String := []
  httpCalls : Nat := 0
  summaryLines : Nat := 0
deriving DecidableEq, Repr

/-- backfill.BackfillTask._run_once under `remaining_budget = 0` with the
one-shot migration gates off: the SQL patch steps run, the stale
re-enrich step returns before selecting anything, no lookups run, and
exactly one summary line ends the cycle (the early no-budget line when
orphans remain, else the final info or nothing-to-do line). -/
def runOnceZeroBudget (wan gw : List String) (catalog : ServiceCatalog)
    (db : BackfillDB) : BackfillDB × CycleReport :=
  let nServ := db.logs.countP (serviceCond catalog)
  let logs1 := db.logs.map (patchServiceRow catalog)
  let n1 := logs1.countP (patchNullCondSrc db.threats wan)
  let logs2 := logs1.map (patchNullRowSrc db.threats wan)
  let n2 := logs2.countP (patchNullCondDst db.threats wan)
  let logs3 := logs2.map (patchNullRowDst db.threats wan)
  let n3 := logs3.countP (patchAbuseCondSrc db.threats wan)
  let logs4 := logs3.map (patchAbuseRowSrc db.threats wan)
  let n4 := logs4.countP (patchAbuseCondDst db.threats wan)
  let logs5 := logs4.map (patchAbuseRowDst db.threats wan)
  let db5 : BackfillDB := { logs := logs5, threats := db.threats }
  let orphans := findOrphans db5 wan gw
  ({ logs := logs5, threats := db.threats },
   { patchedServices := nServ, patchedNull := n1 + n2, patchedAbuse := n3 + n4,
     reenriched := 0, orphans := orphans, httpCalls := 0, summaryLines := 1 })

/-- Row effect of the whole patch sequence of one zero-budget cycle. -/
def cycleRow (threats : ThreatTable) (wan : List String) (catalog : ServiceCatalog)
    (r : LogRow) : LogRow :=
  patchAbuseRowDst threats wan (patchAbuseRowSrc threats wan
    (patchNullRowDst threats wan (patchNullRowSrc threats wan
      (patchServiceRow catalog r))))

theorem patchServiceRow_keeps (catalog : ServiceCatalog) (r : LogRow) :
    (patchServiceRow catalog r).logType = r.logType ∧
    (patchServiceRow catalog r).ruleAction = r.ruleAction ∧
    (patchServiceRow catalog r).threatScore = r.threatScore ∧
    (patchServiceRow catalog r).srcIp = r.srcIp := by
  unfold patchServiceRow
  repeat' split
  all_goals exact ⟨rfl, rfl, rfl, rfl⟩

theorem patchAbuseRowSrc_score (threats : ThreatTable) (wan : List String) (r : LogRow) :
    (patchAbuseRowSrc threats wan r).threatScore = r.threatScore := by
  unfold patchAbuseRowSrc
  repeat' split
  all_goals rfl

theorem patchAbuseRowDst_score (threats : ThreatTable) (wan : List String) (r : LogRow) :
    (patchAbuseRowDst threats wan r).threatScore = r.threatScore := by
  unfold patchAbuseRowDst
  repeat' split
  all_goals rfl

theorem patchNullRowDst_scored (threats : ThreatTable) (wan : List String) (r : LogRow)
    (v : Int) (hv : r.threatScore = some v) : patchNullRowDst threats wan r = r := by
  unfold patchNullRowDst
  repeat' split
  all_goals try rfl
  rename_i hcond
  rw [hv] at hcond
  simp at hcond

/-- C8 counterexample: in a zero-budget cycle the null-score patch can
remove an orphan: a row whose src IP is cached gets its score filled from
the src side, and its uncached remote dst IP thereby leaves the orphan
set, so `orphan IPs after >= orphan IPs before` fails. -/
theorem claim_C8_counterexample :
    findOrphans
      { logs := [{ id := 1, logType := "firewall", ruleAction := some "block",
                   srcIp := some "9.9.9.9", dstIp := some "8.8.8.8" }],
        threats := [("9.9.9.9", { score := some 60, cats := some ["blacklist"] })] }
      [] [] = ["8.8.8.8"] ∧
    findOrphans
      (runOnceZeroBudget [] [] []
        { logs := [{ id := 1, logType := "firewall", ruleAction := some "block",
                     srcIp := some "9.9.9.9", dstIp := some "8.8.8.8" }],
          threats := [("9.9.9.9", { score := some 60, cats := some ["blacklist"] })] }).1
      [] [] = ([] : List String) := by
  decide

/-- C8 amended: a zero-budget cycle issues no threat-service call, the
re-enrich and orphan-lookup steps do no work, the threat cache is
unchanged, exactly one summary line is emitted, the cycle is the pure
composition of the SQL patch steps over the log rows, and the null-score
patch still fills every matching row whose src IP has a scored cache
entry; the orphan set may nevertheless shrink when such a patch fills the
only witness rows of an uncached remote IP. -/
theorem claim_C8 (wan gw : List String) (catalog : ServiceCatalog) (db : BackfillDB) :
    (runOnceZeroBudget wan gw catalog db).2.httpCalls = 0 ∧
    (runOnceZeroBudget wan gw catalog db).2.reenriched = 0 ∧
    (runOnceZeroBudget wan gw catalog db).2.summaryLines = 1 ∧
    (runOnceZeroBudget wan gw catalog db).1.threats = db.threats ∧
    (runOnceZeroBudget wan gw catalog db).1.logs =
      db.logs.map (cycleRow db.threats wan catalog) ∧
    (∀ (r : LogRow) (s : String) (t : TRow),
      r.logType = "firewall" → r.ruleAction = some "block" → r.threatScore = none →
      r.srcIp = some s → wan.contains s = false → List.lookup s db.threats = some t →
      t.score.isSome →
      (cycleRow db.threats wan catalog r).threatScore = t.score) := by
  refine ⟨rfl, rfl, rfl, rfl, ?_, ?_⟩
  · simp only [runOnceZeroBudget, List.map_map]
    rfl
  · intro r s t hlt hra hsc hsrc hwan hlook hts
    obtain ⟨v, hv⟩ := Option.isSome_iff_exists.mp hts
    obtain ⟨k1, k2, k3, k4⟩ := patchServiceRow_keeps catalog r
    have h2 : (patchNullRowSrc db.threats wan (patchServiceRow catalog r)).threatScore =
        t.score := by
      unfold patchNullRowSrc
      simp only [k4, hsrc, hlook]
      have hmem : s ∉ wan := fun hm => by
        have hcc := contains_iff_mem.mpr hm
        rw [hwan] at hcc
        exact Bool.false_ne_true hcc
      rw [if_pos (by simp [hmem, k3, hsc, k1, hlt, k2, hra])]
    unfold cycleRow
    rw [patchAbuseRowDst_score, patchAbuseRowSrc_score,
      patchNullRowDst_scored db.threats wan _ v (by rw [h2, hv]), h2]

theorem claim_C8_witness :
    (runOnceZeroBudget [] [] []
      { logs := [{ id := 1, logType := "firewall", ruleAction := some "block",
                   srcIp := some "11.22.33.44" }],
        threats := [("11.22.33.44", { score := some 60, usageType := some "isp" })] }
      ).2.httpCalls = 0 ∧
    (runOnceZeroBudget [] [] []
      { logs := [{ id := 1, logType := "firewall", ruleAction := some "block",
                   srcIp := some "11.22.33.44" }],
        threats := [("11.22.33.44", { score := some 60, usageType := some "isp" })] }
      ).1.threats =
      [("11.22.33.44", { score := some 60, usageType := some "isp" })] ∧
    (cycleRow [("11.22.33.44", { score := some 60, usageType := some "isp" })] [] []
      { id := 1, logType := "firewall", ruleAction := some "block",
        srcIp := some "11.22.33.44" }).threatScore = some 60 := by
  refine ⟨(claim_C8 [] [] [] _).1, (claim_C8 [] [] [] _).2.2.2.1, ?_⟩
  exact (claim_C8 [] [] []
    { logs := [{ id := 1, logType := "firewall", ruleAction := some "block",
                 srcIp := some "11.22.33.44" }],
      threats := [("11.22.33.44", { score := some 60, usageType := some "isp" })] }
    ).2.2.2.2.2
    { id := 1, logType := "firewall", ruleAction := some "block",
      srcIp := some "11.22.33.44" }
    "11.22.33.44" { score := some 60, usageType := some "isp" }
    rfl rfl rfl rfl (by decide) (by decide) (by decide)
